import Mathlib

/-!
Shallow embedding of the coffee-finder backend (src/backend/main.py) and
proofs of the specified properties.

Modelling conventions:
* Python floats are modelled as real numbers.
* Provider JSON records are modelled as structures of optional fields, one
  field per access path the code reads (`p.get("id")`,
  `p.get("displayName", ...).get("text")`, ...); `none` models an absent or
  null field.
* Python truthiness is modelled explicitly: an optional string is truthy
  when it is present and non-empty, an optional number when it is present
  and non-zero.
* Code that can raise is modelled with `Except`; an `HTTPException` becomes
  an explicit error value.
* The external providers (Google Places, the language model) are modelled
  as an environment value holding the response each one would give; the
  handler consumes from it exactly what the source consumes.
-/

namespace CoffeeFinder

open scoped Classical

/-! ## Data model -/

/-- Raw provider record, one optional field per access path read by
`normalize_place` (main.py lines 85-99). -/
structure RawPlace where
  id : Option String
  displayName_text : Option String
  shortFormattedAddress : Option String
  location_latitude : Option ℝ
  location_longitude : Option ℝ
  rating : Option ℝ
  userRatingCount : Option ℤ
  currentOpeningHours_openNow : Option Bool
  priceLevel : Option String

/-- Canonical cafe record, the dict built by `normalize_place`
(main.py lines 103-114). -/
structure Cafe where
  place_id : String
  name : String
  address : String
  lat : ℝ
  lng : ℝ
  rating : Option ℝ
  rating_count : Option ℤ
  open_now : Option Bool
  price_level : Option String
  distance_m : ℝ

/-- Pydantic model `CafePick` (main.py lines 56-59): only the field shapes
are constrained, nothing else. -/
structure CafePick where
  place_id : String
  why : String
  tags : List String
deriving DecidableEq

/-- Pydantic model `CafePicksResponse` (main.py lines 61-62): a bare list of
picks, with no membership, uniqueness or length constraint. -/
structure CafePicksResponse where
  picks : List CafePick

/-- The closed set of the `Preference` literal type (main.py line 49). -/
def Preference.values : List String := ["study", "friendly", "best", "open", "busy"]

/-- The rubric table `PREFERENCE_DICT` (main.py lines 27-33), modelled as an
association list preserving the source order of its entries. -/
def PREFERENCE_DICT : List (String × String) :=
  [("study", "Pick cafes that are good for studying: quieter vibe, seating-friendly, reliable ratings. Prefer closer options if otherwise similar."),
   ("friendly", "Pick cafes that feel welcoming/cozy and good for hanging out. Balance distance and quality."),
   ("best", "Pick the highest overall quality cafes: prioritize high rating with high rating_count reliability. Distance is secondary."),
   ("open", "Pick cafes that are open right now (open_now true). If many are open, prioritize closer + better rated."),
   ("busy", "Pick popular/lively cafes: prioritize high rating_count (busy proxy), then rating, then distance.")]

/-- Python `d.get(k)`: the value at `k`, or `none` when absent. -/
def dictGet (d : List (String × String)) (k : String) : Option String :=
  (d.find? (fun kv => kv.1 == k)).map (fun kv => kv.2)

/-- Python exception values raised by the code under study. -/
inductive PyErr where
  | keyError (k : String)
deriving DecidableEq

/-- Python `d[k]`: the value at `k`, raising `KeyError k` when absent. -/
def dictGetItem (d : List (String × String)) (k : String) : Except PyErr String :=
  match dictGet d k with
  | some v => Except.ok v
  | none => Except.error (PyErr.keyError k)

/-- The rubric lookup on main.py line 166:
`PREFERENCE_DICT.get(preference, PREFERENCE_DICT["Best"])`.
Python evaluates the default argument `PREFERENCE_DICT["Best"]` before the
`get` call, so the lookup first evaluates that subscript (which may raise)
and only then falls back to it. -/
def rubricLookup (preference : String) : Except PyErr String := do
  let dflt ← dictGetItem PREFERENCE_DICT "Best"
  pure ((dictGet PREFERENCE_DICT preference).getD dflt)

/-! ## Geo distance calculator -/

/-- Python `math.radians` (main.py line 76 applies it to all four inputs). -/
noncomputable def radians (x : ℝ) : ℝ := x * Real.pi / 180

/-- `haversine_m` (main.py lines 75-82): great-circle distance in meters,
with `dlat = lat2 - lat1`, `dlon = lon2 - lon1` taken after conversion to
radians, `a = sin(dlat/2)^2 + cos(lat1)*cos(lat2)*sin(dlon/2)^2`,
`c = 2*asin(sqrt(a))`, radius 6371000. -/
noncomputable def haversine_m (lat1 lon1 lat2 lon2 : ℝ) : ℝ :=
  2 * Real.arcsin (Real.sqrt
      (Real.sin ((radians lat2 - radians lat1) / 2) ^ 2 +
        Real.cos (radians lat1) * Real.cos (radians lat2) *
          Real.sin ((radians lon2 - radians lon1) / 2) ^ 2)) * 6371000

/-! ## Place normalizer -/

/-- Python truthiness of an optional string: present and non-empty.
`None` and `""` are falsy. -/
def truthyOptStr (o : Option String) : Prop := ∃ s, o = some s ∧ s ≠ ""

/-- Python truthiness of an optional float: present and non-zero.
`None` and `0.0` are falsy. -/
def truthyOptReal (o : Option ℝ) : Prop := ∃ x, o = some x ∧ x ≠ 0

/-- `normalize_place` (main.py lines 84-114). The source binds the five
required fields, applies the truthiness test
`if not (place_id and name and address and lat and lng): return None`
and otherwise builds the cafe dict, computing `distance_m` with
`haversine_m`. Under the guard each field is present, so `getD` reads the
bound value. -/
noncomputable def normalize_place (p : RawPlace) (user_lat user_lng : ℝ) : Option Cafe :=
  if truthyOptStr p.id ∧ truthyOptStr p.displayName_text ∧
      truthyOptStr p.shortFormattedAddress ∧
      truthyOptReal p.location_latitude ∧ truthyOptReal p.location_longitude then
    some { place_id := p.id.getD ""
           name := p.displayName_text.getD ""
           address := p.shortFormattedAddress.getD ""
           lat := p.location_latitude.getD 0
           lng := p.location_longitude.getD 0
           rating := p.rating
           rating_count := p.userRatingCount
           open_now := p.currentOpeningHours_openNow
           price_level := p.priceLevel
           distance_m := haversine_m user_lat user_lng
             (p.location_latitude.getD 0) (p.location_longitude.getD 0) }
  else none

/-! ## Nearby fetcher -/

/-- An `HTTPException` raised by the backend: status code and detail. -/
structure HTTPError where
  status_code : Nat
  detail : String
deriving DecidableEq

/-- The one HTTP response the places provider gives to the single request
issued per call (main.py lines 138-150). `places` is the `"places"` key of
the response JSON; `none` models an absent key. -/
structure PlacesHttpResponse where
  status_code : Nat
  text : String
  places : Option (List RawPlace)

/-- `fetch_nearby_cafes` (main.py lines 116-150), as a function of the single
provider response it awaits: a non-200 status raises
`HTTPException(status_code=502, detail=response.text)`; otherwise the result
is `data.get("places", [])`. No retry exists: the function consumes exactly
one response. -/
def fetch_nearby_cafes (resp : PlacesHttpResponse) : Except HTTPError (List RawPlace) :=
  if resp.status_code ≠ 200 then
    Except.error { status_code := 502, detail := resp.text }
  else
    Except.ok (resp.places.getD [])

/-! ## Ranking pipeline -/

/-- The comparison used by `formatted_places.sort(key=lambda x: x["distance_m"])`
(main.py line 206). -/
noncomputable def cafeLE (a b : Cafe) : Bool := decide (a.distance_m ≤ b.distance_m)

/-- The sort on main.py line 206. Python `list.sort` is a stable sort;
`List.mergeSort` is the stable sort of the Lean library, so the two agree on
every input. -/
noncomputable def rankCafes (cafes : List Cafe) : List Cafe := cafes.mergeSort cafeLE

/-! ## Pick selector -/

/-- Post-processing of the parsed model response inside `openai_pick_5`
(main.py lines 181-190): `return response.output_parsed` returns the parsed
picks unchanged; there is no validation against `allowed_place_ids`, no
duplicate check and no length check. -/
def openai_pick_5_result (modelResponse : CafePicksResponse) : List CafePick :=
  modelResponse.picks

/-- Formalisation of the selection invariant in the spec (sections 4.6 and 7),
stated from the spec wording for comparison with the code: every pick
references an allowed candidate id, no id appears twice, and the number of
picks is min 5 (number of candidates). -/
def specPicksInvariant (allowed_place_ids : List String) (numCandidates : Nat)
    (picks : List CafePick) : Prop :=
  (∀ pk ∈ picks, pk.place_id ∈ allowed_place_ids) ∧
  (picks.map (fun pk => pk.place_id)).Nodup ∧
  picks.length = min 5 numCandidates

/-! ## HTTP boundary -/

/-- Response body of a successful `POST /recommendations`
(main.py lines 208-212). -/
structure RecoResponse where
  preference : String
  count : Nat
  preview : List Cafe

/-- The responses the two external providers would give during one request.
The language-model field records what `openai_pick_5` would receive if it
were called. -/
structure ProviderEnv where
  placesResp : PlacesHttpResponse
  llmResp : CafePicksResponse

/-- Body of the `recommendations` handler after the fetch succeeded
(main.py lines 200-212): normalize every place, keep the truthy results,
sort by `distance_m`, and answer with the echoed preference, the count and
the full list. -/
noncomputable def buildResponse (preference : String) (user_lat user_lng : ℝ)
    (places : List RawPlace) : RecoResponse :=
  let sorted := rankCafes (places.filterMap (fun p => normalize_place p user_lat user_lng))
  { preference := preference, count := sorted.length, preview := sorted }

/-- The `recommendations` handler (main.py lines 196-212): await the fetch
(propagating its `HTTPException`), then build the response. It reads only the
places response from the environment; `openai_pick_5` is never called. -/
noncomputable def recommendations (lat lng : ℝ) (preference : String)
    (env : ProviderEnv) : Except HTTPError RecoResponse :=
  (fetch_nearby_cafes env.placesResp).map (buildResponse preference lat lng)

/-- Outcome of one `POST /recommendations` call at the HTTP boundary. -/
inductive ApiResult where
  | validationError
  | upstreamError (e : HTTPError)
  | ok (r : RecoResponse)

/-- One `POST /recommendations` call including the framework boundary:
pydantic validates the body (`lat` in [-90, 90], `lng` in [-180, 180],
`preference` in the `Preference` literal, main.py lines 49-54) and rejects
the request with a client error before the handler — and hence before any
provider call — runs; a valid request runs the handler, whose
`HTTPException` becomes an upstream error response. -/
noncomputable def handleRequest (lat lng : ℝ) (preference : String)
    (env : ProviderEnv) : ApiResult :=
  if (-90 ≤ lat ∧ lat ≤ 90) ∧ (-180 ≤ lng ∧ lng ≤ 180) ∧
      preference ∈ Preference.values then
    match recommendations lat lng preference env with
    | Except.error e => ApiResult.upstreamError e
    | Except.ok r => ApiResult.ok r
  else ApiResult.validationError

/-! ## Sample values used in concrete evaluations -/

/-- Provider record with latitude exactly 0 and every other required field
present and non-empty. -/
def equatorPlace : RawPlace :=
  { id := some "p1"
    displayName_text := some "Cafe Zero"
    shortFormattedAddress := some "1 Equator St"
    location_latitude := some 0
    location_longitude := some 10
    rating := none
    userRatingCount := none
    currentOpeningHours_openNow := none
    priceLevel := none }

/-- Provider record with all required fields present and truthy. -/
def goodPlace : RawPlace :=
  { id := some "p2"
    displayName_text := some "Blue Bottle"
    shortFormattedAddress := some "1 Main St"
    location_latitude := some 10
    location_longitude := some 20
    rating := none
    userRatingCount := none
    currentOpeningHours_openNow := none
    priceLevel := none }

/-- Environment whose places provider answers 200 with a body lacking the
`places` key, and whose language model would answer an empty pick list. -/
def envEmptyOk : ProviderEnv :=
  { placesResp := { status_code := 200, text := "", places := none }
    llmResp := { picks := [] } }

/-- Same places response as `envEmptyOk` but a different language-model
answer. -/
def envEmptyOkAlt : ProviderEnv :=
  { placesResp := { status_code := 200, text := "", places := none }
    llmResp := { picks := [{ place_id := "x", why := "y", tags := [] }] } }

/-- A parsed model response whose two picks duplicate an id that is outside
the candidate set offered to the selector. -/
def badPicks : List CafePick :=
  [{ place_id := "zzz", why := "solid", tags := ["t1", "t2", "t3", "t4"] },
   { place_id := "zzz", why := "solid", tags := ["t1", "t2", "t3", "t4"] }]

/-! ## Helper lemmas -/

theorem pairwise_of_mem_rel {α : Type} {R : α → α → Prop} (l : List α)
    (h : ∀ a ∈ l, ∀ b ∈ l, R a b) : l.Pairwise R := by
  induction l with
  | nil => exact List.Pairwise.nil
  | cons a t ih =>
    refine List.Pairwise.cons (fun b hb => h a (by simp) b (by simp [hb])) ?_
    exact ih fun x hx y hy => h x (by simp [hx]) y (by simp [hy])

theorem length_filterMap_eq_countP {α β : Type} (f : α → Option β) (l : List α) :
    (l.filterMap f).length = l.countP (fun a => (f a).isSome) := by
  induction l with
  | nil => rfl
  | cons a t ih =>
    cases hfa : f a with
    | none => simp [List.filterMap_cons, List.countP_cons, hfa, ih]
    | some b => simp [List.filterMap_cons, List.countP_cons, hfa, ih]

theorem cafeLE_trans (a b c : Cafe) (h1 : cafeLE a b = true) (h2 : cafeLE b c = true) :
    cafeLE a c = true := by
  simp only [cafeLE, decide_eq_true_eq] at h1 h2 ⊢
  exact le_trans h1 h2

theorem cafeLE_total (a b : Cafe) : (cafeLE a b || cafeLE b a) = true := by
  simp only [cafeLE, Bool.or_eq_true, decide_eq_true_eq]
  exact le_total a.distance_m b.distance_m

theorem rankCafes_perm (l : List Cafe) : (rankCafes l).Perm l :=
  List.mergeSort_perm l cafeLE

theorem rankCafes_sorted (l : List Cafe) :
    List.Sorted (fun a b : Cafe => a.distance_m ≤ b.distance_m) (rankCafes l) := by
  have h := @List.sorted_mergeSort Cafe cafeLE cafeLE_trans cafeLE_total l
  refine h.imp ?_
  intro a b hab
  simpa [cafeLE, decide_eq_true_eq] using hab

theorem rankCafes_filter_eq (l : List Cafe) (p : Cafe → Bool)
    (hp : ∀ a b : Cafe, p a = true → p b = true → cafeLE a b = true) :
    (rankCafes l).filter p = l.filter p := by
  have hperm : ((rankCafes l).filter p).Perm (l.filter p) :=
    List.Perm.filter p (rankCafes_perm l)
  have hpw : (l.filter p).Pairwise (fun a b => cafeLE a b = true) := by
    refine pairwise_of_mem_rel _ ?_
    intro a ha b hb
    exact hp a b (List.of_mem_filter ha) (List.of_mem_filter hb)
  have hsub1 : (l.filter p).Sublist (rankCafes l) :=
    List.sublist_mergeSort cafeLE_trans cafeLE_total hpw (List.filter_sublist l)
  have hsub2 : (l.filter p).Sublist ((rankCafes l).filter p) := by
    have h := List.Sublist.filter p hsub1
    have heq : (fun a => p a && p a) = p := by
      funext a; cases p a <;> simp
    rwa [List.filter_filter, heq] at h
  exact (hsub2.eq_of_length hperm.length_eq.symm).symm

/-! ## Claim theorems -/

/-- C1: for every list of normalized cafe records produced from the
provider's response, the ranking output of `/recommendations` is sorted
non-decreasing by `distance_m` and is a stable permutation of the normalized
input: the records at any given `distance_m` appear in the output in exactly
their provider order. -/
theorem ranking_sorted_and_stable (preference : String) (user_lat user_lng : ℝ)
    (places : List RawPlace) :
    List.Sorted (fun a b : Cafe => a.distance_m ≤ b.distance_m)
      (buildResponse preference user_lat user_lng places).preview ∧
    (buildResponse preference user_lat user_lng places).preview.Perm
      (places.filterMap (fun p => normalize_place p user_lat user_lng)) ∧
    ∀ d : ℝ,
      (buildResponse preference user_lat user_lng places).preview.filter
          (fun c => decide (c.distance_m = d)) =
        (places.filterMap (fun p => normalize_place p user_lat user_lng)).filter
          (fun c => decide (c.distance_m = d)) := by
  refine ⟨rankCafes_sorted _, rankCafes_perm _, fun d => ?_⟩
  refine rankCafes_filter_eq _ _ ?_
  intro a b ha hb
  simp only [decide_eq_true_eq] at ha hb
  simp only [cafeLE, decide_eq_true_eq, ha, hb, le_refl]

/-- C2: the spec requires that a `RawPlace` whose latitude is exactly 0.0,
with every other required field present, is normalized into a `Cafe`; the
truthiness check on main.py line 93 instead treats latitude 0 as missing and
`normalize_place` drops the record. -/
theorem normalize_place_drops_zero_latitude :
    normalize_place equatorPlace 1 2 = none := by
  rw [normalize_place, if_neg]
  rintro ⟨-, -, -, ⟨x, hx, hx0⟩, -⟩
  simp only [equatorPlace, Option.some.injEq] at hx
  exact hx0 hx.symm

/-- C3: `normalize_place` yields no `Cafe` (it returns the reject marker
`none`, not an error) exactly when one of the five required fields is
absent, null or falsy; when every required field is present and truthy it
yields a `Cafe` whose `distance_m` is the haversine distance from the user's
coordinate to the place's coordinate. -/
theorem normalize_place_required (p : RawPlace) (user_lat user_lng : ℝ) :
    (¬ (truthyOptStr p.id ∧ truthyOptStr p.displayName_text ∧
        truthyOptStr p.shortFormattedAddress ∧
        truthyOptReal p.location_latitude ∧ truthyOptReal p.location_longitude) →
      normalize_place p user_lat user_lng = none) ∧
    (∀ lat lng : ℝ, p.location_latitude = some lat → p.location_longitude = some lng →
      (truthyOptStr p.id ∧ truthyOptStr p.displayName_text ∧
        truthyOptStr p.shortFormattedAddress ∧
        truthyOptReal p.location_latitude ∧ truthyOptReal p.location_longitude) →
      ∃ c : Cafe, normalize_place p user_lat user_lng = some c ∧
        c.distance_m = haversine_m user_lat user_lng lat lng) := by
  constructor
  · intro h
    rw [normalize_place, if_neg h]
  · intro lat lng hlat hlng h
    refine ⟨_, by rw [normalize_place, if_pos h], ?_⟩
    simp [hlat, hlng]

/-- C3 witness: a concrete record with all required fields truthy is
normalized to a `Cafe` whose `distance_m` is the haversine distance. -/
theorem normalize_place_required_witness :
    ∃ c : Cafe, normalize_place goodPlace 3 4 = some c ∧
      c.distance_m = haversine_m 3 4 10 20 :=
  (normalize_place_required goodPlace 3 4).2 10 20 rfl rfl
    ⟨⟨"p2", rfl, by decide⟩, ⟨"Blue Bottle", rfl, by decide⟩,
     ⟨"1 Main St", rfl, by decide⟩, ⟨10, rfl, by norm_num⟩, ⟨20, rfl, by norm_num⟩⟩

/-- C5: `haversine_m` is symmetric in its two coordinates, and the distance
from a coordinate to itself is 0. -/
theorem haversine_m_symm_and_self_zero :
    (∀ lat1 lon1 lat2 lon2 : ℝ,
      haversine_m lat1 lon1 lat2 lon2 = haversine_m lat2 lon2 lat1 lon1) ∧
    (∀ lat lon : ℝ, haversine_m lat lon lat lon = 0) := by
  have hsq : ∀ x y : ℝ, Real.sin ((x - y) / 2) ^ 2 = Real.sin ((y - x) / 2) ^ 2 := by
    intro x y
    have h : (x - y) / 2 = -((y - x) / 2) := by ring
    rw [h, Real.sin_neg, neg_sq]
  constructor
  · intro lat1 lon1 lat2 lon2
    unfold haversine_m
    have hA : Real.sin ((radians lat2 - radians lat1) / 2) ^ 2 +
        Real.cos (radians lat1) * Real.cos (radians lat2) *
          Real.sin ((radians lon2 - radians lon1) / 2) ^ 2 =
        Real.sin ((radians lat1 - radians lat2) / 2) ^ 2 +
        Real.cos (radians lat2) * Real.cos (radians lat1) *
          Real.sin ((radians lon1 - radians lon2) / 2) ^ 2 := by
      rw [hsq (radians lat2) (radians lat1), hsq (radians lon2) (radians lon1)]
      ring
    rw [hA]
  · intro lat lon
    unfold haversine_m
    simp

/-- C4: the spec requires the rubric lookup to return the rubric of every
valid preference without raising; because Python evaluates the eager default
argument `PREFERENCE_DICT["Best"]` of the `get` call on main.py line 166 and
`"Best"` is not a key of the table, the lookup raises `KeyError "Best"` for
every preference, valid ones included. -/
theorem rubricLookup_raises_for_every_preference :
    (∀ preference : String,
      rubricLookup preference = Except.error (PyErr.keyError "Best")) ∧
    "study" ∈ Preference.values := by
  refine ⟨fun preference => rfl, by decide⟩

/-- C6: the spec requires the selector to guarantee, structurally or by
post-hoc validation, that picks reference only candidate ids, contain no
duplicate id and number min 5 (candidate count); the selector instead
returns the parsed response unchanged (main.py line 190), so a response
duplicating an id outside the candidate set comes back without any
selection-failed error. -/
theorem openai_pick_5_returns_invalid_picks :
    openai_pick_5_result { picks := badPicks } = badPicks ∧
    ¬ specPicksInvariant ["a", "b"] 2 badPicks := by
  refine ⟨rfl, ?_⟩
  rintro ⟨hmem, -, -⟩
  have h := hmem { place_id := "zzz", why := "solid", tags := ["t1", "t2", "t3", "t4"] }
    (by simp [badPicks])
  simp at h

/-- C7: a non-success places-provider response is surfaced as an upstream
error with status 502 carrying the provider's raw error text, and a success
response containing no places yields the empty list. The embedding consumes
exactly one provider response, mirroring the single request with no retry. -/
theorem fetch_nearby_cafes_spec (resp : PlacesHttpResponse) :
    (resp.status_code ≠ 200 →
      fetch_nearby_cafes resp = Except.error { status_code := 502, detail := resp.text }) ∧
    (resp.status_code = 200 → (resp.places = none ∨ resp.places = some []) →
      fetch_nearby_cafes resp = Except.ok []) := by
  constructor
  · intro h
    simp [fetch_nearby_cafes, h]
  · intro h hp
    rcases hp with hp | hp <;> simp [fetch_nearby_cafes, h, hp]

/-- C7 witness: a 429 response is surfaced as a 502 upstream error carrying
the provider text, and a 200 response without a `places` key yields `[]`. -/
theorem fetch_nearby_cafes_spec_witness :
    fetch_nearby_cafes { status_code := 429, text := "quota exceeded", places := none } =
      Except.error { status_code := 502, detail := "quota exceeded" } ∧
    fetch_nearby_cafes { status_code := 200, text := "ok", places := none } =
      Except.ok [] :=
  ⟨(fetch_nearby_cafes_spec _).1 (by decide),
   (fetch_nearby_cafes_spec _).2 rfl (Or.inl rfl)⟩

/-- C8: every successful `/recommendations` response echoes the input
preference, its preview is the ranked sequence of normalized cafes, and its
count equals the length of the preview, which counts exactly the provider
records the normalizer accepted — rejected records are excluded from both. -/
theorem recommendations_response_shape (lat lng : ℝ) (preference : String)
    (env : ProviderEnv) (resp : RecoResponse)
    (h : recommendations lat lng preference env = Except.ok resp) :
    ∃ places : List RawPlace,
      fetch_nearby_cafes env.placesResp = Except.ok places ∧
      resp.preference = preference ∧
      resp.preview = rankCafes (places.filterMap (fun p => normalize_place p lat lng)) ∧
      resp.count = resp.preview.length ∧
      resp.count = places.countP (fun p => (normalize_place p lat lng).isSome) := by
  unfold recommendations at h
  cases hf : fetch_nearby_cafes env.placesResp with
  | error e =>
    rw [hf] at h
    simp [Except.map] at h
  | ok places =>
    rw [hf] at h
    simp only [Except.map, Except.ok.injEq] at h
    subst h
    refine ⟨places, rfl, rfl, rfl, rfl, ?_⟩
    show (rankCafes (places.filterMap fun p => normalize_place p lat lng)).length = _
    rw [rankCafes, List.length_mergeSort, length_filterMap_eq_countP]

/-- C8 witness: for a 200 response with no places, the successful response
echoes the preference and has an empty preview with count 0. -/
theorem recommendations_response_shape_witness :
    ∃ places : List RawPlace,
      fetch_nearby_cafes envEmptyOk.placesResp = Except.ok places ∧
      (RecoResponse.mk "best" 0 []).preference = "best" ∧
      (RecoResponse.mk "best" 0 []).preview =
        rankCafes (places.filterMap (fun p => normalize_place p 1 2)) ∧
      (RecoResponse.mk "best" 0 []).count = (RecoResponse.mk "best" 0 []).preview.length ∧
      (RecoResponse.mk "best" 0 []).count =
        places.countP (fun p => (normalize_place p 1 2).isSome) :=
  recommendations_response_shape 1 2 "best" envEmptyOk (RecoResponse.mk "best" 0 [])
    (by simp [recommendations, envEmptyOk, fetch_nearby_cafes, Except.map,
      buildResponse, rankCafes, List.mergeSort_nil])

/-- C9: a request whose latitude is outside [-90, 90], whose longitude is
outside [-180, 180], or whose preference is not one of the five literals is
rejected with a validation (client) error, for every provider environment —
hence before and independent of any external provider call. -/
theorem invalid_request_rejected (lat lng : ℝ) (preference : String)
    (env : ProviderEnv)
    (h : lat < -90 ∨ 90 < lat ∨ lng < -180 ∨ 180 < lng ∨
      preference ∉ Preference.values) :
    handleRequest lat lng preference env = ApiResult.validationError := by
  rw [handleRequest, if_neg]
  rintro ⟨⟨h1, h2⟩, ⟨h3, h4⟩, h5⟩
  rcases h with h | h | h | h | h
  · linarith
  · linarith
  · linarith
  · linarith
  · exact h h5

/-- C9 witness: a request with latitude 95 is rejected as a validation error
in a concrete provider environment. -/
theorem invalid_request_rejected_witness :
    handleRequest 95 0 "best" envEmptyOk = ApiResult.validationError :=
  invalid_request_rejected 95 0 "best" envEmptyOk (by norm_num)

/-- C10: the `/recommendations` handler never consults the language-model
provider: two environments with the same places response — whatever each
language model would answer — produce the same handler result, both for the
raw handler and at the HTTP boundary, so `openai_pick_5` is unreachable from
the public interface. -/
theorem recommendations_independent_of_llm (lat lng : ℝ) (preference : String)
    (e1 e2 : ProviderEnv) (h : e1.placesResp = e2.placesResp) :
    recommendations lat lng preference e1 = recommendations lat lng preference e2 ∧
    handleRequest lat lng preference e1 = handleRequest lat lng preference e2 := by
  have hr : recommendations lat lng preference e1 = recommendations lat lng preference e2 := by
    unfold recommendations
    rw [h]
  refine ⟨hr, ?_⟩
  unfold handleRequest
  rw [hr]

/-- C10 witness: two environments differing only in the language-model
answer give identical results. -/
theorem recommendations_independent_of_llm_witness :
    recommendations 1 2 "best" envEmptyOk = recommendations 1 2 "best" envEmptyOkAlt ∧
    handleRequest 1 2 "best" envEmptyOk = handleRequest 1 2 "best" envEmptyOkAlt :=
  recommendations_independent_of_llm 1 2 "best" envEmptyOk envEmptyOkAlt rfl

end CoffeeFinder
